import Mathlib

/-!
Shallow embedding of `src/bhashini_client.py` (class `BhashiniClient`).

Modelling conventions:
* Python dicts that the code uses as ordered maps become association lists
  (`List (String × α)`); insertion order is preserved, matching CPython.
* JSON values exchanged with the HTTP endpoints become the inductive `JVal`.
* An HTTP response is `HttpResponse`: its status code, its raw text, and
  `jsonBody`, the result of `response.json()` (`none` models a
  `json.JSONDecodeError`).
* Each `raise` site is mapped to a constructor of `BError` carrying the
  structured data the error message interpolates (the surrounding English
  prose of the Python message is formatting and is not modelled).
* Methods that perform an HTTP POST take the endpoint's `HttpResponse` as an
  explicit argument; a result that is the same for every such argument models
  a path on which no network call happens.
* Methods are state-passing: they take the `ClientState` built by `__init__`
  and return their result together with the state after the call, so that
  mutation (there is none) would be visible.
-/

namespace Bhashini

/-- A JSON value, as decoded by Python's `json` module. -/
inductive JVal where
  | str (s : String)
  | num (n : Int)
  | bool (b : Bool)
  | null
  | arr (elems : List JVal)
  | obj (fields : List (String × JVal))

/-- Python dict lookup on an association list: first matching key. -/
def lookupA {α : Type} : List (String × α) → String → Option α
  | [], _ => none
  | (k, v) :: rest, key => if k = key then some v else lookupA rest key

/-- The single-quote character, used by Python `repr`. -/
def sq : String := String.singleton (Char.ofNat 39)

mutual
/-- Python `repr` of a decoded JSON value (string escaping not modelled;
the strings appearing in this development contain no special characters). -/
def pyRepr : JVal → String
  | .str s => sq ++ s ++ sq
  | .num n => toString n
  | .bool b => if b then "True" else "False"
  | .null => "None"
  | .arr xs => "[" ++ pyReprArr xs ++ "]"
  | .obj fs => "\x7b" ++ pyReprObj fs ++ "\x7d"

/-- `repr` of the elements of a Python list, comma separated. -/
def pyReprArr : List JVal → String
  | [] => ""
  | [x] => pyRepr x
  | x :: xs => pyRepr x ++ ", " ++ pyReprArr xs

/-- `repr` of the items of a Python dict, comma separated. -/
def pyReprObj : List (String × JVal) → String
  | [] => ""
  | [(k, v)] => sq ++ k ++ sq ++ ": " ++ pyRepr v
  | (k, v) :: fs => sq ++ k ++ sq ++ ": " ++ pyRepr v ++ ", " ++ pyReprObj fs
end

/-- Python `str` of a decoded JSON value (as applied by an f-string). -/
def pyStr : JVal → String
  | .str s => s
  | v => pyRepr v

/-- The `language` sub-object of one entry of a task's `config` list in the
pipeline configuration response. `targetLanguage` is present only for
translation entries. -/
structure LanguageInfo where
  sourceLanguage : String
  targetLanguage : Option String
  sourceScriptCode : Option String
  targetScriptCode : Option String

/-- One entry of a task's `config` list in the pipeline configuration
response. `supportedVoices` sits beside `language`, not inside it. -/
structure LanguageConfig where
  language : LanguageInfo
  serviceId : String
  supportedVoices : Option (List String)

/-- One element of `pipelineResponseConfig`. -/
structure TaskConfig where
  taskType : String
  config : List LanguageConfig

/-- The `pipelineInferenceAPIEndPoint` object of the configuration response;
`inferenceApiKey` stands for `inferenceApiKey.value`. -/
structure InferenceAPIEndPoint where
  inferenceApiKey : String
  callbackUrl : String

/-- The decoded configuration-endpoint response (`PipelineConfig` in the
spec), restricted to the keys the client reads. -/
structure PipelineConfig where
  pipelineInferenceAPIEndPoint : InferenceAPIEndPoint
  pipelineResponseConfig : List TaskConfig

/-- One `language_info` dict built by `_parse_pipeline_config`
(a `ServiceEntry` in the spec). For asr entries `targetScriptCode` and
`supportedVoices` are absent; for tts entries `supportedVoices` is always
present (the parser defaults it to `[]`); for translation entries
`targetScriptCode` is present and `supportedVoices` absent. -/
structure ServiceEntry where
  serviceId : String
  sourceScriptCode : Option String
  targetScriptCode : Option String := none
  supportedVoices : Option (List String) := none

/-- The dict built by `_parse_pipeline_config` (`PipelineData` in the spec). -/
structure PipelineData where
  asr : List (String × List ServiceEntry)
  tts : List (String × List ServiceEntry)
  translation : List (String × List (String × List ServiceEntry))
  inferenceApiKey : String
  callbackUrl : String

/-- `pipeline_data[task][src].append(info)`, creating the key with `[]`
first when absent — mirrors lines 100-111 of the source. -/
def addEntry {α : Type} : List (String × List α) → String → α → List (String × List α)
  | [], key, v => [(key, [v])]
  | (k, vs) :: rest, key, v =>
    if k = key then (k, vs ++ [v]) :: rest else (k, vs) :: addEntry rest key v

/-- The two-level insertion for translation entries — mirrors lines
113-126 of the source. -/
def addEntry2 {α : Type} : List (String × List (String × List α)) → String → String → α →
    List (String × List (String × List α))
  | [], src, tgt, v => [(src, [(tgt, [v])])]
  | (k, tm) :: rest, src, tgt, v =>
    if k = src then (k, addEntry tm tgt v) :: rest
    else (k, tm) :: addEntry2 rest src tgt v

/-- The body of the inner `for language_config in pipeline['config']` loop of
`_parse_pipeline_config`. `none` models the `KeyError` raised when a
translation entry lacks `targetLanguage`. -/
def parseStep (task_type : String) (pd : PipelineData) (lc : LanguageConfig) :
    Option PipelineData :=
  let src := lc.language.sourceLanguage
  if task_type ≠ "translation" then
    let info : ServiceEntry :=
      { serviceId := lc.serviceId
        sourceScriptCode := lc.language.sourceScriptCode
        supportedVoices :=
          if task_type = "tts" then some (lc.supportedVoices.getD []) else none }
    if task_type = "asr" then some { pd with asr := addEntry pd.asr src info }
    else some { pd with tts := addEntry pd.tts src info }
  else
    match lc.language.targetLanguage with
    | none => none
    | some tgt =>
      let info : ServiceEntry :=
        { serviceId := lc.serviceId
          sourceScriptCode := lc.language.sourceScriptCode
          targetScriptCode := lc.language.targetScriptCode }
      some { pd with translation := addEntry2 pd.translation src tgt info }

/-- The body of the outer `for pipeline in config['pipelineResponseConfig']`
loop: unknown task types are skipped. -/
def parseTask (pd : PipelineData) (tc : TaskConfig) : Option PipelineData :=
  if tc.taskType = "asr" ∨ tc.taskType = "translation" ∨ tc.taskType = "tts" then
    tc.config.foldlM (parseStep tc.taskType) pd
  else
    some pd

/-- `_parse_pipeline_config` — lines 73-128 of the source. -/
def parse_pipeline_config (config : PipelineConfig) : Option PipelineData :=
  config.pipelineResponseConfig.foldlM parseTask
    { asr := []
      tts := []
      translation := []
      inferenceApiKey := config.pipelineInferenceAPIEndPoint.inferenceApiKey
      callbackUrl := config.pipelineInferenceAPIEndPoint.callbackUrl }

/-- The state `__init__` leaves behind: `self.pipeline_data` and
`self.inference_api_key` (a copy of the parsed key). -/
structure ClientState where
  pipeline_data : PipelineData
  inference_api_key : String

/-- `__init__`, with the already-decoded configuration response as input (the
HTTP fetch itself is outside the embedding); `none` models a parse failure. -/
def initClient (config : PipelineConfig) : Option ClientState :=
  (parse_pipeline_config config).map fun pd =>
    { pipeline_data := pd, inference_api_key := pd.inferenceApiKey }

/-- The base64 alphabet. -/
def b64Alphabet : List Char :=
  "ABCDEFGHIJKLMNOPQRSTUVWXYZabcdefghijklmnopqrstuvwxyz0123456789+/".toList

/-- The base64 digit for a 6-bit value. -/
def b64Char (n : Nat) : Char := b64Alphabet.getD n (Char.ofNat 65)

/-- `base64.b64encode(bytes).decode('utf-8')` on a byte sequence (each
element a value below 256). -/
def b64encode : List Nat → String
  | [] => ""
  | [a] =>
    String.mk [b64Char (a / 4), b64Char (a % 4 * 16)] ++ "=="
  | [a, b] =>
    String.mk [b64Char (a / 4), b64Char (a % 4 * 16 + b / 16), b64Char (b % 16 * 4)] ++ "="
  | a :: b :: c :: rest =>
    String.mk [b64Char (a / 4), b64Char (a % 4 * 16 + b / 16),
      b64Char (b % 16 * 4 + c / 64), b64Char (c % 64)] ++ b64encode rest

/-- The errors the client can raise. Each constructor stands for one `raise`
site and carries the structured data its Python message interpolates:
* `invalidArgument` — the `ValueError`s for a bad task type
  (`list_available_languages`) and a bad gender (`tts`);
* `unsupportedLanguage` — carries the supported-language list the message
  joins with a comma;
* `unsupportedLanguagePair` — carries the available targets for the source;
* `unsupportedVoice` — carries the `supported_voices` list;
* `inferenceError` — the `Exception` of `_handle_response_errors`, carrying
  the extracted `error_message` (Python prefixes it with the constant text
  `HTTP error occurred: `);
* `attributeError` — `.get` called on a non-dict JSON body (uncaught in the
  source);
* `jsonDecodeError` — `response.json()` failed on a success response
  (uncaught in the source);
* `indexError` — `[0]` on an empty service list (unreachable from a parsed
  configuration, see `parsed_tts_values_ne_nil`). -/
inductive BError where
  | invalidArgument
  | unsupportedLanguage (available : List String)
  | unsupportedLanguagePair (availableTargets : List String)
  | unsupportedVoice (available : List String)
  | inferenceError (message : String)
  | attributeError
  | jsonDecodeError
  | indexError
deriving DecidableEq

/-- An HTTP response from the inference endpoint: status code, raw body
text, and `jsonBody`, the value `response.json()` would return (`none` when
the body is not valid JSON, modelling `json.JSONDecodeError`). -/
structure HttpResponse where
  statusCode : Nat
  text : String
  jsonBody : Option JVal

/-- `_handle_response_errors` — lines 432-450 of the source. Returns the
raised error, or `none` when `raise_for_status` does not raise (status
outside 400-599). On a JSON object body the message is
`error_info.get('message', 'An error occurred.')`; on a non-JSON body it is
`response.text`; `.get` on a JSON non-object raises `AttributeError`. -/
def handle_response_errors (response : HttpResponse) : Option BError :=
  if 400 ≤ response.statusCode ∧ response.statusCode < 600 then
    some (match response.jsonBody with
      | some (.obj fields) =>
        .inferenceError (pyStr ((lookupA fields "message").getD (.str "An error occurred.")))
      | some _ => .attributeError
      | none => .inferenceError response.text)
  else
    none

/-- `self._handle_response_errors(response); return response.json()` — the
shared tail of `asr`, `translate` and `tts`. -/
def handleInference (response : HttpResponse) : Except BError JVal :=
  match handle_response_errors response with
  | some err => .error err
  | none =>
    match response.jsonBody with
    | some j => .ok j
    | none => .error .jsonDecodeError

/-- The `payload` dict literal of `asr` — lines 226-247 of the source. -/
def asrPayload (source_language service_id audio_format : String)
    (sampling_rate : Nat) (audio_b64 : String) : JVal :=
  .obj [("pipelineTasks", .arr [.obj [
          ("taskType", .str "asr"),
          ("config", .obj [
            ("language", .obj [("sourceLanguage", .str source_language)]),
            ("serviceId", .str service_id),
            ("audioFormat", .str audio_format),
            ("samplingRate", .num sampling_rate)])]]),
        ("inputData", .obj [("audio", .arr [.obj [
          ("audioContent", .str audio_b64)]])])]

/-- The `payload` dict literal of `translate` — lines 306-326 of the source. -/
def translatePayload (source_language target_language service_id text : String) : JVal :=
  .obj [("pipelineTasks", .arr [.obj [
          ("taskType", .str "translation"),
          ("config", .obj [
            ("language", .obj [
              ("sourceLanguage", .str source_language),
              ("targetLanguage", .str target_language)]),
            ("serviceId", .str service_id)])]]),
        ("inputData", .obj [("input", .arr [.obj [("source", .str text)]])])]

/-- The `payload` dict literal of `tts` — lines 394-415 of the source. -/
def ttsPayload (source_language service_id gender : String)
    (sampling_rate : Nat) (text : String) : JVal :=
  .obj [("pipelineTasks", .arr [.obj [
          ("taskType", .str "tts"),
          ("config", .obj [
            ("language", .obj [("sourceLanguage", .str source_language)]),
            ("serviceId", .str service_id),
            ("gender", .str gender),
            ("samplingRate", .num sampling_rate)])]]),
        ("inputData", .obj [("input", .arr [.obj [("source", .str text)]])])]

/-- The result of `list_available_languages`: a list of language codes for
asr/tts, a dict of source language to target-language list for translation. -/
inductive LangListing where
  | langs (ls : List String)
  | pairs (m : List (String × List String))
deriving DecidableEq

/-- `list_available_languages` — lines 130-160 of the source. Pure: the
source performs no network call here. -/
def list_available_languages (s : ClientState) (task_type : String) :
    Except BError LangListing × ClientState :=
  if task_type = "asr" ∨ task_type = "translation" ∨ task_type = "tts" then
    if task_type = "translation" then
      (.ok (.pairs (s.pipeline_data.translation.map fun p => (p.1, p.2.map Prod.fst))), s)
    else if task_type = "asr" then
      (.ok (.langs (s.pipeline_data.asr.map Prod.fst)), s)
    else
      (.ok (.langs (s.pipeline_data.tts.map Prod.fst)), s)
  else
    (.error .invalidArgument, s)

/-- `get_supported_voices` — lines 162-189 of the source. The carried
language list is what `self.list_available_languages('tts')` returns. -/
def get_supported_voices (s : ClientState) (source_language : String) :
    Except BError (List String) × ClientState :=
  match lookupA s.pipeline_data.tts source_language with
  | none => (.error (.unsupportedLanguage (s.pipeline_data.tts.map Prod.fst)), s)
  | some [] => (.error .indexError, s)
  | some (e :: _) => (.ok (e.supportedVoices.getD []), s)

/-- The part of `asr` before `requests.post`: validation and the request
payload — lines 216-247 of the source. -/
def asrRequest (s : ClientState) (audio_content : List Nat)
    (source_language audio_format : String) (sampling_rate : Nat) :
    Except BError JVal :=
  match lookupA s.pipeline_data.asr source_language with
  | none => .error (.unsupportedLanguage (s.pipeline_data.asr.map Prod.fst))
  | some [] => .error .indexError
  | some (e :: _) =>
    .ok (asrPayload source_language e.serviceId audio_format sampling_rate
      (b64encode audio_content))

/-- `asr` — lines 192-262 of the source. `response` is what the inference
endpoint answers to the posted payload; on a validation error the method
returns before any network activity, so the result ignores `response`. -/
def asr (s : ClientState) (audio_content : List Nat)
    (source_language audio_format : String) (sampling_rate : Nat)
    (response : HttpResponse) : Except BError JVal × ClientState :=
  match asrRequest s audio_content source_language audio_format sampling_rate with
  | .error e => (.error e, s)
  | .ok _ => (handleInference response, s)

/-- The part of `translate` before `requests.post` — lines 289-326. -/
def translateRequest (s : ClientState)
    (text source_language target_language : String) : Except BError JVal :=
  match lookupA s.pipeline_data.translation source_language with
  | none => .error (.unsupportedLanguage (s.pipeline_data.translation.map Prod.fst))
  | some tmap =>
    match lookupA tmap target_language with
    | none => .error (.unsupportedLanguagePair (tmap.map Prod.fst))
    | some [] => .error .indexError
    | some (e :: _) =>
      .ok (translatePayload source_language target_language e.serviceId text)

/-- `translate` — lines 264-341 of the source. -/
def translate (s : ClientState) (text source_language target_language : String)
    (response : HttpResponse) : Except BError JVal × ClientState :=
  match translateRequest s text source_language target_language with
  | .error e => (.error e, s)
  | .ok _ => (handleInference response, s)

/-- The part of `tts` before `requests.post` — lines 373-415 of the source.
Check order matches the source: language table first, then `[0]`, then the
gender whitelist, then the `supported_voices` membership test (which is
skipped when `supported_voices` is the empty, hence falsy, list). -/
def ttsRequest (s : ClientState) (text source_language gender : String)
    (sampling_rate : Nat) : Except BError JVal :=
  match lookupA s.pipeline_data.tts source_language with
  | none => .error (.unsupportedLanguage (s.pipeline_data.tts.map Prod.fst))
  | some [] => .error .indexError
  | some (e :: _) =>
    let supported_voices := e.supportedVoices.getD []
    if ¬(gender = "male" ∨ gender = "female") then
      .error .invalidArgument
    else if supported_voices ≠ [] ∧ gender ∉ supported_voices then
      .error (.unsupportedVoice supported_voices)
    else
      .ok (ttsPayload source_language e.serviceId gender sampling_rate text)

/-- `tts` — lines 343-430 of the source. -/
def tts (s : ClientState) (text source_language gender : String)
    (sampling_rate : Nat) (response : HttpResponse) :
    Except BError JVal × ClientState :=
  match ttsRequest s text source_language gender sampling_rate with
  | .error e => (.error e, s)
  | .ok _ => (handleInference response, s)

/-- Field access on a decoded JSON object. -/
def jget (j : JVal) (key : String) : Option JVal :=
  match j with
  | .obj fields => lookupA fields key
  | _ => none

/-- First element of a decoded JSON array. -/
def jhead (j : JVal) : Option JVal :=
  match j with
  | .arr (x :: _) => some x
  | _ => none

/-- `payload['pipelineTasks'][0]['config']['serviceId']` of a request body. -/
def requestServiceId (payload : JVal) : Option JVal :=
  ((((jget payload "pipelineTasks").bind jhead).bind
    (fun t => jget t "config")).bind (fun c => jget c "serviceId"))

/-- `src` has a translation entry with target `tgt` in a parsed translation
table. -/
def hasPair (m : List (String × List (String × List ServiceEntry))) (src tgt : String) : Prop :=
  ∃ ts, lookupA m src = some ts ∧ (lookupA ts tgt).isSome

/-- Every value of the association list is a non-empty list. -/
def allValuesNonempty {α : Type} (m : List (String × List α)) : Prop :=
  ∀ k vs, lookupA m k = some vs → vs ≠ []

/-- The (source, target) pairs named by a list of translation-task
`config` entries (an entry without `targetLanguage` names none). -/
def lcPairs (lcs : List LanguageConfig) : List (String × String) :=
  lcs.filterMap fun lc =>
    lc.language.targetLanguage.map fun tgt => (lc.language.sourceLanguage, tgt)

/-- The (source, target) pairs named by the translation tasks of a
`pipelineResponseConfig` list, in order. -/
def tcsTransPairs (tcs : List TaskConfig) : List (String × String) :=
  tcs.foldr
    (fun tc acc => if tc.taskType = "translation" then lcPairs tc.config ++ acc else acc) []

/-- The (source, target) pairs the configuration offers for translation. -/
def cfgTransPairs (cfg : PipelineConfig) : List (String × String) :=
  tcsTransPairs cfg.pipelineResponseConfig

/-- A `config` entry of the configuration response, built from its parts. -/
def sampleLC (src : String) (tgt : Option String) (svc : String)
    (voices : Option (List String)) : LanguageConfig :=
  { language :=
      { sourceLanguage := src
        targetLanguage := tgt
        sourceScriptCode := none
        targetScriptCode := none }
    serviceId := svc
    supportedVoices := voices }

/-- A concrete configuration response: two ASR services for `hi` (svc1
first), one for `en`; translation `hi`→`gu`; TTS for `hi` (voices
`["female"]`) and `gu` (empty voice list). -/
def sampleCfg : PipelineConfig :=
  { pipelineInferenceAPIEndPoint := { inferenceApiKey := "infkey", callbackUrl := "cb" }
    pipelineResponseConfig :=
      [ { taskType := "asr"
          config := [sampleLC "hi" none "svc1" none, sampleLC "hi" none "svc2" none,
                     sampleLC "en" none "svcE" none] },
        { taskType := "translation"
          config := [sampleLC "hi" (some "gu") "svcHG" none] },
        { taskType := "tts"
          config := [sampleLC "hi" none "svcT" (some ["female"]),
                     sampleLC "gu" none "svcG" (some [])] } ] }

/-- `sampleCfg` with the two ASR services for `hi` in the opposite order
(svc2 first). -/
def sampleCfgSwapped : PipelineConfig :=
  { pipelineInferenceAPIEndPoint := { inferenceApiKey := "infkey", callbackUrl := "cb" }
    pipelineResponseConfig :=
      [ { taskType := "asr"
          config := [sampleLC "hi" none "svc2" none, sampleLC "hi" none "svc1" none,
                     sampleLC "en" none "svcE" none] },
        { taskType := "translation"
          config := [sampleLC "hi" (some "gu") "svcHG" none] },
        { taskType := "tts"
          config := [sampleLC "hi" none "svcT" (some ["female"]),
                     sampleLC "gu" none "svcG" (some [])] } ] }

/-- The client state constructed from `sampleCfg`. -/
def sampleClient : ClientState :=
  match initClient sampleCfg with
  | some s => s
  | none =>
    { pipeline_data :=
        { asr := [], tts := [], translation := [], inferenceApiKey := "", callbackUrl := "" }
      inference_api_key := "" }

/-- The client state constructed from `sampleCfgSwapped`. -/
def sampleClientSwapped : ClientState :=
  match initClient sampleCfgSwapped with
  | some s => s
  | none =>
    { pipeline_data :=
        { asr := [], tts := [], translation := [], inferenceApiKey := "", callbackUrl := "" }
      inference_api_key := "" }

/-- The dict comprehension `list_available_languages` builds for the
translation task: each source language mapped to the key list of its
target table. -/
def translationListing (s : ClientState) : List (String × List String) :=
  s.pipeline_data.translation.map fun p => (p.1, p.2.map Prod.fst)

/-- A success response from the inference endpoint, used where a concrete
response is needed on paths that never reach the network. -/
def sampleResp : HttpResponse :=
  { statusCode := 200, text := "ok", jsonBody := some (.obj []) }

/-- Construction from `sampleCfg` succeeds and yields `sampleClient`. -/
theorem sampleClient_init : initClient sampleCfg = some sampleClient := rfl

/-- A key is bound after `lookupA` exactly when it occurs among the keys. -/
theorem lookupA_isSome_iff {α : Type} (m : List (String × α)) (k : String) :
    (lookupA m k).isSome ↔ k ∈ m.map Prod.fst := by
  induction m with
  | nil => simp [lookupA]
  | cons p rest ih =>
    obtain ⟨k0, v0⟩ := p
    by_cases hk : k0 = k
    · subst hk
      simp [lookupA]
    · simp [lookupA, hk, ih, Ne.symm hk]

/-- `lookupA` after mapping the values. -/
theorem lookupA_map {α β : Type} (f : α → β) (m : List (String × α)) (k : String) :
    lookupA (m.map fun p => (p.1, f p.2)) k = (lookupA m k).map f := by
  induction m with
  | nil => simp [lookupA]
  | cons p rest ih =>
    by_cases hk : p.1 = k
    · simp [lookupA, hk]
    · simp [lookupA, hk, ih]

/-- `lookupA` after `addEntry`: the touched key gets the appended list,
every other key is untouched. -/
theorem lookupA_addEntry {α : Type} (m : List (String × List α)) (key : String) (v : α)
    (j : String) :
    lookupA (addEntry m key v) j =
      if j = key then some ((lookupA m key).getD [] ++ [v]) else lookupA m j := by
  induction m with
  | nil =>
    by_cases hj : j = key
    · subst hj; simp [addEntry, lookupA]
    · simp [addEntry, lookupA, hj, Ne.symm hj]
  | cons p rest ih =>
    obtain ⟨k0, vs0⟩ := p
    by_cases hk : k0 = key
    · subst hk
      by_cases hj : j = k0
      · subst hj; simp [addEntry, lookupA]
      · simp [addEntry, lookupA, hj, Ne.symm hj]
    · by_cases hj : k0 = j
      · subst hj
        simp [addEntry, lookupA, hk]
      · simp [addEntry, lookupA, hk, hj, ih]

/-- `lookupA` after `addEntry2`: the touched source key gets the inner
insertion, every other key is untouched. -/
theorem lookupA_addEntry2 (m : List (String × List (String × List ServiceEntry)))
    (src tgt : String) (v : ServiceEntry) (j : String) :
    lookupA (addEntry2 m src tgt v) j =
      if j = src then some (addEntry ((lookupA m src).getD []) tgt v) else lookupA m j := by
  induction m with
  | nil =>
    by_cases hj : j = src
    · subst hj; simp [addEntry2, lookupA, addEntry]
    · simp [addEntry2, lookupA, hj, Ne.symm hj]
  | cons p rest ih =>
    obtain ⟨k0, tm0⟩ := p
    by_cases hk : k0 = src
    · subst hk
      by_cases hj : j = k0
      · subst hj; simp [addEntry2, lookupA]
      · simp [addEntry2, lookupA, hj, Ne.symm hj]
    · by_cases hj : k0 = j
      · subst hj
        simp [addEntry2, lookupA, hk]
      · simp [addEntry2, lookupA, hk, hj, ih]

/-- `addEntry` keeps all values non-empty. -/
theorem allValuesNonempty_addEntry {α : Type} (m : List (String × List α))
    (key : String) (v : α) (h : allValuesNonempty m) :
    allValuesNonempty (addEntry m key v) := by
  intro k vs hvs
  rw [lookupA_addEntry] at hvs
  by_cases hk : k = key
  · simp only [hk, if_pos rfl] at hvs
    cases hvs
    simp
  · rw [if_neg hk] at hvs
    exact h k vs hvs

/-- The pairs bound in a translation table after `addEntry2`. -/
theorem hasPair_addEntry2 (m : List (String × List (String × List ServiceEntry)))
    (src tgt : String) (v : ServiceEntry) (a b : String) :
    hasPair (addEntry2 m src tgt v) a b ↔ hasPair m a b ∨ (a = src ∧ b = tgt) := by
  unfold hasPair
  by_cases ha : a = src
  · subst ha
    rw [lookupA_addEntry2, if_pos rfl]
    constructor
    · rintro ⟨ts, hts, hb⟩
      cases hts
      rw [lookupA_addEntry] at hb
      by_cases hbt : b = tgt
      · exact Or.inr ⟨rfl, hbt⟩
      · rw [if_neg hbt] at hb
        cases hma : lookupA m a with
        | none => rw [hma] at hb; simp [lookupA] at hb
        | some ts0 => exact Or.inl ⟨ts0, rfl, by rw [hma] at hb; simpa using hb⟩
    · rintro (⟨ts, hts, hb⟩ | ⟨-, hbt⟩)
      · refine ⟨_, rfl, ?_⟩
        rw [lookupA_addEntry]
        by_cases hbt : b = tgt
        · simp [hbt]
        · rw [if_neg hbt, hts]
          simpa using hb
      · subst hbt
        refine ⟨_, rfl, ?_⟩
        rw [lookupA_addEntry, if_pos rfl]
        simp
  · rw [lookupA_addEntry2, if_neg ha]
    simp [ha]

/-- The source keys bound in a translation table after `addEntry2`. -/
theorem isSome_addEntry2 (m : List (String × List (String × List ServiceEntry)))
    (src tgt : String) (v : ServiceEntry) (a : String) :
    (lookupA (addEntry2 m src tgt v) a).isSome ↔ (lookupA m a).isSome ∨ a = src := by
  rw [lookupA_addEntry2]
  by_cases ha : a = src
  · simp [ha]
  · simp [ha]

/-- A translation parse step succeeds exactly on entries with a
`targetLanguage`, and only touches the translation table. -/
theorem parseStep_translation (pd pd' : PipelineData) (lc : LanguageConfig)
    (h : parseStep "translation" pd lc = some pd') :
    ∃ tgt info, lc.language.targetLanguage = some tgt ∧
      pd'.translation = addEntry2 pd.translation lc.language.sourceLanguage tgt info ∧
      pd'.asr = pd.asr ∧ pd'.tts = pd.tts := by
  unfold parseStep at h
  simp only [if_neg (by simp : ¬("translation" ≠ "translation"))] at h
  cases htgt : lc.language.targetLanguage with
  | none => rw [htgt] at h; cases h
  | some tgt =>
    rw [htgt] at h
    cases h
    exact ⟨tgt, _, rfl, rfl, rfl, rfl⟩

/-- A non-translation parse step always succeeds and leaves the
translation table unchanged. -/
theorem parseStep_ne_translation (t : String) (ht : t ≠ "translation")
    (pd pd' : PipelineData) (lc : LanguageConfig)
    (h : parseStep t pd lc = some pd') : pd'.translation = pd.translation := by
  unfold parseStep at h
  rw [if_pos ht] at h
  by_cases hasr : t = "asr"
  · rw [if_pos hasr] at h; cases h; rfl
  · rw [if_neg hasr] at h; cases h; rfl

/-- An asr or translation parse step leaves the tts table unchanged; a tts
step performs an `addEntry` on it. -/
theorem parseStep_tts_nonempty (t : String) (pd pd' : PipelineData) (lc : LanguageConfig)
    (h : parseStep t pd lc = some pd') (hne : allValuesNonempty pd.tts) :
    allValuesNonempty pd'.tts := by
  unfold parseStep at h
  by_cases htr : t = "translation"
  · rw [if_neg (by simpa using htr)] at h
    cases htgt : lc.language.targetLanguage with
    | none => rw [htgt] at h; cases h
    | some tgt => rw [htgt] at h; cases h; exact hne
  · rw [if_pos htr] at h
    by_cases hasr : t = "asr"
    · rw [if_pos hasr] at h; cases h; exact hne
    · rw [if_neg hasr] at h
      cases h
      exact allValuesNonempty_addEntry _ _ _ hne

/-- Folding the translation parse step over a task's entries: the other
tables are untouched, and the bound sources and pairs grow by exactly the
pairs the entries name. -/
theorem trans_foldl (lcs : List LanguageConfig) :
    ∀ pd pd', List.foldlM (parseStep "translation") pd lcs = some pd' →
    (pd'.asr = pd.asr ∧ pd'.tts = pd.tts) ∧
    (∀ a, (lookupA pd'.translation a).isSome ↔
      (lookupA pd.translation a).isSome ∨ a ∈ (lcPairs lcs).map Prod.fst) ∧
    (∀ a b, hasPair pd'.translation a b ↔ hasPair pd.translation a b ∨ (a, b) ∈ lcPairs lcs) := by
  induction lcs with
  | nil =>
    intro pd pd' h
    cases h
    simp [lcPairs]
  | cons lc rest ih =>
    intro pd pd' h
    rw [List.foldlM_cons] at h
    cases hstep : parseStep "translation" pd lc with
    | none => rw [hstep] at h; cases h
    | some pd1 =>
      rw [hstep] at h
      simp only [Option.bind_eq_bind] at h
      obtain ⟨tgt, info, htgt, htr, hasr, htts⟩ := parseStep_translation pd pd1 lc hstep
      obtain ⟨⟨iasr, itts⟩, ikeys, ipairs⟩ := ih pd1 pd' h
      have hpairs : lcPairs (lc :: rest) = (lc.language.sourceLanguage, tgt) :: lcPairs rest := by
        simp [lcPairs, List.filterMap_cons, htgt]
      refine ⟨⟨by rw [iasr, hasr], by rw [itts, htts]⟩, ?_, ?_⟩
      · intro a
        rw [ikeys a, htr, isSome_addEntry2, hpairs]
        simp only [List.map_cons, List.mem_cons]
        tauto
      · intro a b
        rw [ipairs a b, htr, hasPair_addEntry2, hpairs]
        simp only [List.mem_cons, Prod.mk.injEq]
        tauto

/-- Folding a non-translation parse step leaves the translation table
unchanged. -/
theorem nonTrans_foldl (t : String) (ht : t ≠ "translation") (lcs : List LanguageConfig) :
    ∀ pd pd', List.foldlM (parseStep t) pd lcs = some pd' →
    pd'.translation = pd.translation := by
  induction lcs with
  | nil => intro pd pd' h; cases h; rfl
  | cons lc rest ih =>
    intro pd pd' h
    rw [List.foldlM_cons] at h
    cases hstep : parseStep t pd lc with
    | none => rw [hstep] at h; cases h
    | some pd1 =>
      rw [hstep] at h
      simp only [Option.bind_eq_bind] at h
      rw [ih pd1 pd' h, parseStep_ne_translation t ht pd pd1 lc hstep]

/-- Folding any parse step keeps all tts value lists non-empty. -/
theorem foldl_tts_nonempty (t : String) (lcs : List LanguageConfig) :
    ∀ pd pd', List.foldlM (parseStep t) pd lcs = some pd' →
    allValuesNonempty pd.tts → allValuesNonempty pd'.tts := by
  induction lcs with
  | nil => intro pd pd' h hne; cases h; exact hne
  | cons lc rest ih =>
    intro pd pd' h hne
    rw [List.foldlM_cons] at h
    cases hstep : parseStep t pd lc with
    | none => rw [hstep] at h; cases h
    | some pd1 =>
      rw [hstep] at h
      simp only [Option.bind_eq_bind] at h
      exact ih pd1 pd' h (parseStep_tts_nonempty t pd pd1 lc hstep hne)

/-- Folding `parseTask` over the whole `pipelineResponseConfig`: the bound
translation sources and pairs grow by exactly the pairs of the
translation tasks. -/
theorem tasks_foldl (tcs : List TaskConfig) :
    ∀ pd pd', List.foldlM parseTask pd tcs = some pd' →
    (∀ a, (lookupA pd'.translation a).isSome ↔
      (lookupA pd.translation a).isSome ∨ a ∈ (tcsTransPairs tcs).map Prod.fst) ∧
    (∀ a b, hasPair pd'.translation a b ↔
      hasPair pd.translation a b ∨ (a, b) ∈ tcsTransPairs tcs) := by
  induction tcs with
  | nil =>
    intro pd pd' h
    cases h
    simp [tcsTransPairs]
  | cons tc rest ih =>
    intro pd pd' h
    rw [List.foldlM_cons] at h
    cases hstep : parseTask pd tc with
    | none => rw [hstep] at h; cases h
    | some pd1 =>
      rw [hstep] at h
      simp only [Option.bind_eq_bind] at h
      obtain ⟨ikeys, ipairs⟩ := ih pd1 pd' h
      by_cases htr : tc.taskType = "translation"
      · have hguard : tc.taskType = "asr" ∨ tc.taskType = "translation" ∨ tc.taskType = "tts" :=
          Or.inr (Or.inl htr)
        unfold parseTask at hstep
        rw [if_pos hguard, htr] at hstep
        obtain ⟨-, skeys, spairs⟩ := trans_foldl tc.config pd pd1 hstep
        have hp : tcsTransPairs (tc :: rest) = lcPairs tc.config ++ tcsTransPairs rest := by
          simp [tcsTransPairs, htr]
        refine ⟨fun a => ?_, fun a b => ?_⟩
        · rw [ikeys a, skeys a, hp]
          simp only [List.map_append, List.mem_append]
          tauto
        · rw [ipairs a b, spairs a b, hp]
          simp only [List.mem_append]
          tauto
      · have hp : tcsTransPairs (tc :: rest) = tcsTransPairs rest := by
          simp [tcsTransPairs, htr]
        have htr1 : pd1.translation = pd.translation := by
          unfold parseTask at hstep
          by_cases hguard : tc.taskType = "asr" ∨ tc.taskType = "translation" ∨ tc.taskType = "tts"
          · rw [if_pos hguard] at hstep
            exact nonTrans_foldl tc.taskType htr tc.config pd pd1 hstep
          · rw [if_neg hguard] at hstep; cases hstep; rfl
        rw [hp]
        exact ⟨fun a => by rw [ikeys a, htr1], fun a b => by rw [ipairs a b, htr1]⟩

/-- Folding `parseTask` keeps all tts value lists non-empty. -/
theorem tasks_foldl_tts_nonempty (tcs : List TaskConfig) :
    ∀ pd pd', List.foldlM parseTask pd tcs = some pd' →
    allValuesNonempty pd.tts → allValuesNonempty pd'.tts := by
  induction tcs with
  | nil => intro pd pd' h hne; cases h; exact hne
  | cons tc rest ih =>
    intro pd pd' h hne
    rw [List.foldlM_cons] at h
    cases hstep : parseTask pd tc with
    | none => rw [hstep] at h; cases h
    | some pd1 =>
      rw [hstep] at h
      simp only [Option.bind_eq_bind] at h
      refine ih pd1 pd' h ?_
      unfold parseTask at hstep
      by_cases hguard : tc.taskType = "asr" ∨ tc.taskType = "translation" ∨ tc.taskType = "tts"
      · rw [if_pos hguard] at hstep
        exact foldl_tts_nonempty tc.taskType tc.config pd pd1 hstep hne
      · rw [if_neg hguard] at hstep; cases hstep; exact hne

/-- A parsed configuration never binds a tts language to an empty service
list: each language key is created together with its first entry. -/
theorem parsed_tts_values_ne_nil (cfg : PipelineConfig) (pd : PipelineData)
    (h : parse_pipeline_config cfg = some pd) : allValuesNonempty pd.tts := by
  refine tasks_foldl_tts_nonempty cfg.pipelineResponseConfig _ pd h ?_
  intro k vs hvs
  cases hvs

/-- The translation sources and pairs of a parsed configuration are exactly
those the configuration's translation tasks name. -/
theorem parsed_translation_char (cfg : PipelineConfig) (pd : PipelineData)
    (h : parse_pipeline_config cfg = some pd) :
    (∀ a, (lookupA pd.translation a).isSome ↔ a ∈ (cfgTransPairs cfg).map Prod.fst) ∧
    (∀ a b, hasPair pd.translation a b ↔ (a, b) ∈ cfgTransPairs cfg) := by
  obtain ⟨ikeys, ipairs⟩ := tasks_foldl cfg.pipelineResponseConfig _ pd h
  refine ⟨fun a => ?_, fun a b => ?_⟩
  · rw [ikeys a]
    simp [lookupA, cfgTransPairs]
  · rw [ipairs a b]
    simp [hasPair, lookupA, cfgTransPairs]

/-- C9: for every task_type not in \x7basr, translation, tts\x7d,
`list_available_languages` raises InvalidArgument. The function is pure —
its source performs no network call on any path, which the embedding
reflects by taking no response argument. -/
theorem c9_invalid_task_type (s : ClientState) (task_type : String)
    (h1 : task_type ≠ "asr") (h2 : task_type ≠ "translation") (h3 : task_type ≠ "tts") :
    list_available_languages s task_type = (.error .invalidArgument, s) := by
  simp [list_available_languages, h1, h2, h3]

/-- Witness for C9 at the task type `summarize`. -/
theorem c9_invalid_task_type_witness :
    list_available_languages sampleClient "summarize" = (.error .invalidArgument, sampleClient) :=
  c9_invalid_task_type sampleClient "summarize" (by decide) (by decide) (by decide)

/-- C4: every public operation returns the client state it was given —
whether it returns a value or raises — so the `PipelineData` parsed at
construction (tables, inference key, callback URL, all fields of the state)
is never mutated. The operations are embedded state-passing precisely so
that a mutation would be visible here. -/
theorem c4_pipeline_data_immutable (s : ClientState)
    (task_type source_language target_language audio_format gender text : String)
    (audio_content : List Nat) (sampling_rate : Nat) (response : HttpResponse) :
    (list_available_languages s task_type).2 = s ∧
    (get_supported_voices s source_language).2 = s ∧
    (asr s audio_content source_language audio_format sampling_rate response).2 = s ∧
    (translate s text source_language target_language response).2 = s ∧
    (tts s text source_language gender sampling_rate response).2 = s := by
  refine ⟨?_, ?_, ?_, ?_, ?_⟩
  · unfold list_available_languages
    split_ifs <;> rfl
  · unfold get_supported_voices
    cases lookupA s.pipeline_data.tts source_language with
    | none => rfl
    | some vs => cases vs <;> rfl
  · unfold asr
    cases asrRequest s audio_content source_language audio_format sampling_rate <;> rfl
  · unfold translate
    cases translateRequest s text source_language target_language <;> rfl
  · unfold tts
    cases ttsRequest s text source_language gender sampling_rate <;> rfl

/-- C8: `translate` raises UnsupportedLanguage when the source language has
no translation entries, and UnsupportedLanguagePair when the source is known
but the target is not among its targets. Both conclusions hold for every
`response`, i.e. the result does not depend on the network at all: the
source raises before `requests.post`. -/
theorem c8_translate_errors (s : ClientState)
    (text source_language target_language : String) (response : HttpResponse) :
    (lookupA s.pipeline_data.translation source_language = none →
      translate s text source_language target_language response =
        (.error (.unsupportedLanguage (s.pipeline_data.translation.map Prod.fst)), s)) ∧
    (∀ tmap, lookupA s.pipeline_data.translation source_language = some tmap →
      lookupA tmap target_language = none →
      translate s text source_language target_language response =
        (.error (.unsupportedLanguagePair (tmap.map Prod.fst)), s)) := by
  constructor
  · intro h
    simp [translate, translateRequest, h]
  · intro tmap h1 h2
    simp [translate, translateRequest, h1, h2]

/-- Witness for C8: with the sample table (`hi` → `gu` only), translating
`hi` → `en` raises UnsupportedLanguagePair carrying `["gu"]`, and an unknown
source raises UnsupportedLanguage carrying `["hi"]`. -/
theorem c8_translate_errors_witness :
    translate sampleClient "text" "hi" "en" sampleResp =
      (.error (.unsupportedLanguagePair ["gu"]), sampleClient) ∧
    translate sampleClient "text" "zz" "gu" sampleResp =
      (.error (.unsupportedLanguage ["hi"]), sampleClient) :=
  ⟨(c8_translate_errors sampleClient "text" "hi" "en" sampleResp).2
      [("gu", [{ serviceId := "svcHG", sourceScriptCode := none }])] rfl rfl,
   (c8_translate_errors sampleClient "text" "zz" "gu" sampleResp).1 rfl⟩

/-- The response-handling tail of the three inference methods can only
produce an inference, attribute or JSON-decode error — never a voice error. -/
theorem handleInference_ne_unsupportedVoice (response : HttpResponse) (l : List String) :
    handleInference response ≠ .error (.unsupportedVoice l) := by
  unfold handleInference handle_response_errors
  by_cases hs : 400 ≤ response.statusCode ∧ response.statusCode < 600
  · rw [if_pos hs]
    cases hjb : response.jsonBody with
    | none => simp
    | some j => cases j <;> simp
  · rw [if_neg hs]
    cases hjb : response.jsonBody with
    | none => simp
    | some j => simp

/-- C3 counterexample: with a gender outside \x7bmale, female\x7d and a
source language absent from the TTS table, `tts` raises UnsupportedLanguage,
not InvalidArgument — the language check precedes the gender check. -/
theorem c3_language_before_gender_counterexample :
    tts sampleClient "hello" "zz" "robot" 8000 sampleResp =
      (.error (.unsupportedLanguage ["hi", "gu"]), sampleClient) ∧
    BError.unsupportedLanguage ["hi", "gu"] ≠ BError.invalidArgument :=
  ⟨rfl, by decide⟩

/-- C3 (amended): for every gender outside \x7bmale, female\x7d, `tts`
raises InvalidArgument whenever the source language is present in the TTS
table; when the source language is absent it raises UnsupportedLanguage
instead, because the language check runs first. -/
theorem c3_gender_check (s : ClientState) (text source_language gender : String)
    (sampling_rate : Nat) (response : HttpResponse)
    (hm : gender ≠ "male") (hf : gender ≠ "female") :
    (∀ e rest, lookupA s.pipeline_data.tts source_language = some (e :: rest) →
      tts s text source_language gender sampling_rate response =
        (.error .invalidArgument, s)) ∧
    (lookupA s.pipeline_data.tts source_language = none →
      tts s text source_language gender sampling_rate response =
        (.error (.unsupportedLanguage (s.pipeline_data.tts.map Prod.fst)), s)) := by
  constructor
  · intro e rest h
    simp [tts, ttsRequest, h, hm, hf]
  · intro h
    simp [tts, ttsRequest, h]

/-- Witness for C3 (amended) at gender `robot` and the supported language
`hi`. -/
theorem c3_gender_check_witness :
    tts sampleClient "hello" "hi" "robot" 8000 sampleResp =
      (.error .invalidArgument, sampleClient) :=
  (c3_gender_check sampleClient "hello" "hi" "robot" 8000 sampleResp
    (by decide) (by decide)).1
    { serviceId := "svcT", sourceScriptCode := none, supportedVoices := some ["female"] }
    [] rfl

/-- C7: with a supported language and a gender in \x7bmale, female\x7d,
`tts` raises UnsupportedVoice carrying the non-empty `supportedVoices` list
of the first ServiceEntry when the gender is not in it; when that list is
empty the voice check accepts the gender and the request is built. -/
theorem c7_voice_check (s : ClientState) (text source_language gender : String)
    (sampling_rate : Nat) (response : HttpResponse)
    (e : ServiceEntry) (rest : List ServiceEntry)
    (h : lookupA s.pipeline_data.tts source_language = some (e :: rest))
    (hg : gender = "male" ∨ gender = "female") :
    (e.supportedVoices.getD [] ≠ [] → gender ∉ e.supportedVoices.getD [] →
      tts s text source_language gender sampling_rate response =
        (.error (.unsupportedVoice (e.supportedVoices.getD [])), s)) ∧
    (e.supportedVoices.getD [] = [] →
      ttsRequest s text source_language gender sampling_rate =
        .ok (ttsPayload source_language e.serviceId gender sampling_rate text)) := by
  constructor
  · intro hne hnm
    rcases hg with rfl | rfl <;> simp [tts, ttsRequest, h, hne, hnm]
  · intro hempty
    rcases hg with rfl | rfl <;> simp [ttsRequest, h, hempty]

/-- Witness for C7: for `hi` (voices `["female"]`) a male request raises
UnsupportedVoice carrying `["female"]`; for `gu` (empty voice list) a male
request passes the voice check and builds its payload. -/
theorem c7_voice_check_witness :
    tts sampleClient "hello" "hi" "male" 8000 sampleResp =
      (.error (.unsupportedVoice ["female"]), sampleClient) ∧
    ttsRequest sampleClient "hello" "gu" "male" 8000 =
      .ok (ttsPayload "gu" "svcG" "male" 8000 "hello") :=
  ⟨(c7_voice_check sampleClient "hello" "hi" "male" 8000 sampleResp
      { serviceId := "svcT", sourceScriptCode := none, supportedVoices := some ["female"] }
      [] rfl (Or.inl rfl)).1 (by decide) (by decide),
   (c7_voice_check sampleClient "hello" "gu" "male" 8000 sampleResp
      { serviceId := "svcG", sourceScriptCode := none, supportedVoices := some [] }
      [] rfl (Or.inl rfl)).2 rfl⟩

/-- C10: for a language in the TTS table and a gender in
\x7bmale, female\x7d, `tts` avoids every UnsupportedVoice failure exactly
when `get_supported_voices` returns an empty voice set or one containing the
gender — both read the `supportedVoices` of the same first ServiceEntry. -/
theorem c10_voice_consistency (s : ClientState) (text source_language gender : String)
    (sampling_rate : Nat) (response : HttpResponse)
    (e : ServiceEntry) (rest : List ServiceEntry)
    (h : lookupA s.pipeline_data.tts source_language = some (e :: rest))
    (hg : gender = "male" ∨ gender = "female") :
    (∀ l, (tts s text source_language gender sampling_rate response).1 ≠
        .error (.unsupportedVoice l)) ↔
    (∃ vs, (get_supported_voices s source_language).1 = .ok vs ∧
      (vs = [] ∨ gender ∈ vs)) := by
  have hgsv : (get_supported_voices s source_language).1 = .ok (e.supportedVoices.getD []) := by
    simp [get_supported_voices, h]
  constructor
  · intro hno
    refine ⟨e.supportedVoices.getD [], hgsv, ?_⟩
    by_contra hcon
    push_neg at hcon
    obtain ⟨hne, hnm⟩ := hcon
    refine hno (e.supportedVoices.getD []) ?_
    rcases hg with rfl | rfl <;> simp [tts, ttsRequest, h, hne, hnm]
  · rintro ⟨vs, hvs, hcase⟩ l
    rw [hgsv] at hvs
    injection hvs with hvs
    subst hvs
    have hreq : ttsRequest s text source_language gender sampling_rate =
        .ok (ttsPayload source_language e.serviceId gender sampling_rate text) := by
      rcases hg with rfl | rfl <;> rcases hcase with hcase | hcase <;>
        simp [ttsRequest, h, hcase]
    have : (tts s text source_language gender sampling_rate response).1 =
        handleInference response := by
      simp [tts, hreq]
    rw [this]
    exact handleInference_ne_unsupportedVoice response l

/-- Witness for C10: for `hi` (voices `["female"]`) and gender female the
right side holds, so no UnsupportedVoice failure can occur. -/
theorem c10_voice_consistency_witness :
    (tts sampleClient "hello" "hi" "female" 8000 sampleResp).1 ≠
      .error (.unsupportedVoice ["female"]) :=
  (c10_voice_consistency sampleClient "hello" "hi" "female" 8000 sampleResp
    { serviceId := "svcT", sourceScriptCode := none, supportedVoices := some ["female"] }
    [] rfl (Or.inr rfl)).mpr ⟨["female"], rfl, Or.inr (by decide)⟩ ["female"]

/-- C6: for a client built from a parsed configuration,
`get_supported_voices` raises UnsupportedLanguage carrying the supported
TTS languages when the language is absent from the TTS table, and otherwise
returns exactly the `supportedVoices` of the first ServiceEntry for that
language (possibly empty). The parse invariant guarantees the entry list is
never empty. -/
theorem c6_supported_voices (cfg : PipelineConfig) (s : ClientState)
    (h : initClient cfg = some s) (source_language : String) :
    (lookupA s.pipeline_data.tts source_language = none →
      get_supported_voices s source_language =
        (.error (.unsupportedLanguage (s.pipeline_data.tts.map Prod.fst)), s)) ∧
    (∀ vs, lookupA s.pipeline_data.tts source_language = some vs →
      ∃ e rest, vs = e :: rest ∧
        get_supported_voices s source_language = (.ok (e.supportedVoices.getD []), s)) := by
  unfold initClient at h
  cases hp : parse_pipeline_config cfg with
  | none => rw [hp] at h; cases h
  | some pd =>
    rw [hp] at h
    cases h
    constructor
    · intro hnone
      simp [get_supported_voices, hnone]
    · intro vs hvs
      have hne := parsed_tts_values_ne_nil cfg pd hp _ vs hvs
      cases vs with
      | nil => exact absurd rfl hne
      | cons e rest =>
        exact ⟨e, rest, rfl, by simp [get_supported_voices, hvs]⟩

/-- Witness for C6: on the sample configuration, `hi` yields `["female"]`
and the unknown language `zz` raises UnsupportedLanguage carrying
`["hi", "gu"]`. -/
theorem c6_supported_voices_witness :
    get_supported_voices sampleClient "hi" = (.ok ["female"], sampleClient) ∧
    get_supported_voices sampleClient "zz" =
      (.error (.unsupportedLanguage ["hi", "gu"]), sampleClient) := by
  refine ⟨?_, (c6_supported_voices sampleCfg sampleClient sampleClient_init "zz").1 rfl⟩
  obtain ⟨e, rest, hvs, hres⟩ :=
    (c6_supported_voices sampleCfg sampleClient sampleClient_init "hi").2
      [{ serviceId := "svcT", sourceScriptCode := none, supportedVoices := some ["female"] }] rfl
  injection hvs with h1 h2
  subst h1
  exact hres

/-- C2: the request bodies built by `asr`, `translate` and `tts` carry as
`config.serviceId` the serviceId of the FIRST ServiceEntry of the parsed
table for the resolved language (pair); and, on the two sample
configurations that differ only in the order of the two `hi` ASR services,
the serviceId placed in the request follows whichever entry is first. -/
theorem c2_service_id_first_entry :
    (∀ (s : ClientState) (audio_content : List Nat) (source_language audio_format : String)
        (sampling_rate : Nat) (e : ServiceEntry) (rest : List ServiceEntry),
      lookupA s.pipeline_data.asr source_language = some (e :: rest) →
      asrRequest s audio_content source_language audio_format sampling_rate =
        .ok (asrPayload source_language e.serviceId audio_format sampling_rate
          (b64encode audio_content)) ∧
      requestServiceId (asrPayload source_language e.serviceId audio_format sampling_rate
        (b64encode audio_content)) = some (.str e.serviceId)) ∧
    (∀ (s : ClientState) (text source_language target_language : String)
        (tmap : List (String × List ServiceEntry)) (e : ServiceEntry) (rest : List ServiceEntry),
      lookupA s.pipeline_data.translation source_language = some tmap →
      lookupA tmap target_language = some (e :: rest) →
      translateRequest s text source_language target_language =
        .ok (translatePayload source_language target_language e.serviceId text) ∧
      requestServiceId (translatePayload source_language target_language e.serviceId text) =
        some (.str e.serviceId)) ∧
    (∀ (s : ClientState) (text source_language gender : String) (sampling_rate : Nat)
        (e : ServiceEntry) (rest : List ServiceEntry),
      lookupA s.pipeline_data.tts source_language = some (e :: rest) →
      (gender = "male" ∨ gender = "female") →
      (e.supportedVoices.getD [] = [] ∨ gender ∈ e.supportedVoices.getD []) →
      ttsRequest s text source_language gender sampling_rate =
        .ok (ttsPayload source_language e.serviceId gender sampling_rate text) ∧
      requestServiceId (ttsPayload source_language e.serviceId gender sampling_rate text) =
        some (.str e.serviceId)) ∧
    (initClient sampleCfg = some sampleClient ∧
      initClient sampleCfgSwapped = some sampleClientSwapped ∧
      asrRequest sampleClient [] "hi" "wav" 16000 =
        .ok (asrPayload "hi" "svc1" "wav" 16000 (b64encode [])) ∧
      asrRequest sampleClientSwapped [] "hi" "wav" 16000 =
        .ok (asrPayload "hi" "svc2" "wav" 16000 (b64encode [])) ∧
      requestServiceId (asrPayload "hi" "svc1" "wav" 16000 (b64encode [])) =
        some (.str "svc1") ∧
      requestServiceId (asrPayload "hi" "svc2" "wav" 16000 (b64encode [])) =
        some (.str "svc2")) := by
  refine ⟨?_, ?_, ?_, rfl, rfl, rfl, rfl, rfl, rfl⟩
  · intro s audio_content source_language audio_format sampling_rate e rest h
    exact ⟨by simp [asrRequest, h], rfl⟩
  · intro s text source_language target_language tmap e rest h1 h2
    exact ⟨by simp [translateRequest, h1, h2], rfl⟩
  · intro s text source_language gender sampling_rate e rest h hg hvoice
    refine ⟨?_, rfl⟩
    rcases hg with rfl | rfl <;> rcases hvoice with hv | hv <;> simp [ttsRequest, h, hv]

/-- Witness for C2 at the sample client: the `hi` ASR request carries
`svc1`, the serviceId of the first of the two `hi` entries. -/
theorem c2_service_id_first_entry_witness :
    asrRequest sampleClient [] "hi" "wav" 16000 =
      .ok (asrPayload "hi" "svc1" "wav" 16000 (b64encode [])) ∧
    requestServiceId (asrPayload "hi" "svc1" "wav" 16000 (b64encode [])) =
      some (.str "svc1") :=
  c2_service_id_first_entry.1 sampleClient [] "hi" "wav" 16000
    { serviceId := "svc1", sourceScriptCode := none }
    [{ serviceId := "svc2", sourceScriptCode := none }] rfl

/-- C1 counterexample: a 500 response whose body is valid JSON without a
`message` field makes `asr` raise an InferenceError carrying the fixed
default text `An error occurred.`, not the raw response text as the claim
states. -/
theorem c1_raw_text_counterexample :
    (asr sampleClient [] "hi" "wav" 16000
        { statusCode := 500, text := "\x7b\x22foo\x22: 1\x7d"
          jsonBody := some (.obj [("foo", .num 1)]) }).1 =
      .error (.inferenceError "An error occurred.") ∧
    "An error occurred." ≠ "\x7b\x22foo\x22: 1\x7d" :=
  ⟨rfl, by decide⟩

/-- C1 (amended): on a non-success status (400-599), `asr`, `translate` and
`tts` raise an InferenceError whose carried message is the `message` field
of the JSON object body when that field is present, the fixed default text
`An error occurred.` when the body is a JSON object without that field, and
the raw response text when the body is not valid JSON. (Python wraps the
carried message in the constant prefix `HTTP error occurred: `.) The
validation hypotheses state that the call reaches the network at all. -/
theorem c1_inference_error_message (s : ClientState) (audio_content : List Nat)
    (text source_language target_language audio_format gender : String)
    (sampling_rate : Nat) (response : HttpResponse)
    (h4 : 400 ≤ response.statusCode) (h6 : response.statusCode < 600) :
    (response.jsonBody = none →
      ((∃ p, asrRequest s audio_content source_language audio_format sampling_rate = .ok p) →
        (asr s audio_content source_language audio_format sampling_rate response).1 =
          .error (.inferenceError response.text)) ∧
      ((∃ p, translateRequest s text source_language target_language = .ok p) →
        (translate s text source_language target_language response).1 =
          .error (.inferenceError response.text)) ∧
      ((∃ p, ttsRequest s text source_language gender sampling_rate = .ok p) →
        (tts s text source_language gender sampling_rate response).1 =
          .error (.inferenceError response.text))) ∧
    (∀ fields, response.jsonBody = some (.obj fields) →
      ((∃ p, asrRequest s audio_content source_language audio_format sampling_rate = .ok p) →
        (asr s audio_content source_language audio_format sampling_rate response).1 =
          .error (.inferenceError
            (pyStr ((lookupA fields "message").getD (.str "An error occurred."))))) ∧
      ((∃ p, translateRequest s text source_language target_language = .ok p) →
        (translate s text source_language target_language response).1 =
          .error (.inferenceError
            (pyStr ((lookupA fields "message").getD (.str "An error occurred."))))) ∧
      ((∃ p, ttsRequest s text source_language gender sampling_rate = .ok p) →
        (tts s text source_language gender sampling_rate response).1 =
          .error (.inferenceError
            (pyStr ((lookupA fields "message").getD (.str "An error occurred.")))))) := by
  constructor
  · intro hjb
    have hhi : handleInference response = .error (.inferenceError response.text) := by
      unfold handleInference handle_response_errors
      rw [if_pos ⟨h4, h6⟩, hjb]
    refine ⟨?_, ?_, ?_⟩ <;> rintro ⟨p, hreq⟩
    · unfold asr
      rw [hreq]
      exact hhi
    · unfold translate
      rw [hreq]
      exact hhi
    · unfold tts
      rw [hreq]
      exact hhi
  · intro fields hjb
    have hhi : handleInference response = .error (.inferenceError
        (pyStr ((lookupA fields "message").getD (.str "An error occurred.")))) := by
      unfold handleInference handle_response_errors
      rw [if_pos ⟨h4, h6⟩, hjb]
    refine ⟨?_, ?_, ?_⟩ <;> rintro ⟨p, hreq⟩
    · unfold asr
      rw [hreq]
      exact hhi
    · unfold translate
      rw [hreq]
      exact hhi
    · unfold tts
      rw [hreq]
      exact hhi

/-- Witness for C1 (amended): a 500 response with body
`\x7b"message": "quota exceeded"\x7d` makes `translate` raise an
InferenceError carrying `quota exceeded`. -/
theorem c1_inference_error_message_witness :
    (translate sampleClient "hello" "hi" "gu"
        { statusCode := 500, text := "irrelevant"
          jsonBody := some (.obj [("message", .str "quota exceeded")]) }).1 =
      .error (.inferenceError "quota exceeded") :=
  ((c1_inference_error_message sampleClient [] "hello" "hi" "gu" "wav" "female" 16000
      { statusCode := 500, text := "irrelevant"
        jsonBody := some (.obj [("message", .str "quota exceeded")]) }
      (by decide) (by decide)).2 [("message", .str "quota exceeded")] rfl).2.1
    ⟨translatePayload "hi" "gu" "svcHG" "hello", rfl⟩

/-- C5: after a successful construction, `list_available_languages` on the
translation task returns the source-to-targets listing; its key set is
exactly the set of source languages of the configuration's translation
entries, and the value list of each bound source holds exactly the targets
the configuration offers for that source. -/
theorem c5_translation_listing (cfg : PipelineConfig) (s : ClientState)
    (h : initClient cfg = some s) :
    list_available_languages s "translation" = (.ok (.pairs (translationListing s)), s) ∧
    (∀ src, src ∈ (translationListing s).map Prod.fst ↔
      src ∈ (cfgTransPairs cfg).map Prod.fst) ∧
    (∀ src ts, lookupA (translationListing s) src = some ts →
      ∀ tgt, tgt ∈ ts ↔ (src, tgt) ∈ cfgTransPairs cfg) := by
  unfold initClient at h
  cases hp : parse_pipeline_config cfg with
  | none => rw [hp] at h; cases h
  | some pd =>
    rw [hp] at h
    cases h
    obtain ⟨ckeys, cpairs⟩ := parsed_translation_char cfg pd hp
    refine ⟨rfl, fun src => ?_, fun src ts hts tgt => ?_⟩
    · rw [← lookupA_isSome_iff, translationListing, lookupA_map]
      simpa using ckeys src
    · rw [translationListing, lookupA_map, Option.map_eq_some'] at hts
      obtain ⟨tm, htm, rfl⟩ := hts
      rw [← cpairs src tgt, ← lookupA_isSome_iff]
      unfold hasPair
      constructor
      · intro hsome
        exact ⟨tm, htm, hsome⟩
      · rintro ⟨ts', hts', hsome⟩
        rw [htm] at hts'
        injection hts' with hts'
        subst hts'
        exact hsome

/-- Witness for C5 on the sample configuration: the listing is
`[("hi", ["gu"])]` and the pair (hi, gu) is offered by the configuration. -/
theorem c5_translation_listing_witness :
    list_available_languages sampleClient "translation" =
      (.ok (.pairs [("hi", ["gu"])]), sampleClient) ∧
    ("hi", "gu") ∈ cfgTransPairs sampleCfg :=
  ⟨(c5_translation_listing sampleCfg sampleClient sampleClient_init).1,
   ((c5_translation_listing sampleCfg sampleClient sampleClient_init).2.2
      "hi" ["gu"] rfl "gu").mp (by decide)⟩

end Bhashini
